import Mathlib

/-!
Verification of the `python-trackers` repository (files
`src/trackers/trackers.py` and `src/trackers/misc.py`).

The embedding is shallow and value-based:
* the console is modelled as a value of type `Emission` (message text plus
  line terminator) returned by every operation that prints;
* the wall clock (`perf_counter`) is an external collaborator, so every
  operation that reads it takes the current reading as an explicit `now`
  argument; readings are natural numbers in hundredths of a second, which
  makes Python's two-decimal `:.2f` formatting an exact division;
* the caller-supplied iterable is modelled by `PyIter`: a sized raw
  sequence (a Python list), an unsized one (a generator, whose `len` raises
  `TypeError`), or an active iterator holding its remaining elements;
* exceptions are modelled with `Except`; `StopIteration` from the wrapped
  iterator is the `none` result of `PyIter.next`;
* the process-wide `WhileTrackerMeta.instances` cache is modelled as an
  explicit association list (the heap) keyed by the `(kind, name)` pair
  that the source hashes; a cached instance is mutated through the
  registry, which models Python's in-place object mutation.
-/

namespace Trackers

/-- Rendering of an elapsed time, Python's `f-string` `:.2f` applied to a
clock reading measured in hundredths of a second. -/
def fmt2 (n : Nat) : String :=
  let frac := n % 100
  let fracStr := if frac < 10 then "0" ++ toString frac else toString frac
  toString (n / 100) ++ "." ++ fracStr

/-- One line printed to the console: the message produced by `get_msg` and
the terminator produced by `get_end` (`"\n"` or `"\r"`). -/
structure Emission where
  msg : String
  term : String
  deriving Repr, DecidableEq

/-! ### `misc.InfSeq` — the cyclic sequence -/

/-- State of `misc.InfSeq`: the backing sequence `_seq` and the cursor `_i`. -/
structure InfSeq (α : Type) where
  _seq : List α
  _i : Nat
  deriving Repr, DecidableEq

/-- Source `InfSeq.__next__`: reset the cursor when it has reached the length,
index the backing sequence, advance the cursor.  An out-of-range index is
Python's `IndexError`, modelled as `none`. -/
def InfSeq.next {α : Type} (s : InfSeq α) : Option (α × InfSeq α) :=
  let i := if s._i = s._seq.length then 0 else s._i
  match s._seq[i]? with
  | none => none
  | some r => some (r, ⟨s._seq, i + 1⟩)

/-- The value produced by the `(k+1)`-st consecutive `__next__` call on `s`
(`k` is 0-based), `none` if any of those calls raises. -/
def InfSeq.draw {α : Type} (s : InfSeq α) : Nat → Option α
  | 0 => (s.next).map Prod.fst
  | k + 1 =>
    match s.next with
    | none => none
    | some (_, s1) => s1.draw k

/-! ### The wrapped iterable -/

/-- The caller-supplied iterable of `ForTracker`:
`raw l` is a sized sequence (`len` succeeds), `gen l` an unsized stream
(`len` raises `TypeError`), `active l` an iterator with remaining
elements `l` (unsized as well). -/
inductive PyIter (α : Type) where
  | raw : List α → PyIter α
  | gen : List α → PyIter α
  | active : List α → PyIter α
  deriving Repr, DecidableEq

/-- Python's `len`: `some` for a sized sequence, `none` for the
`TypeError` of generators and iterators. -/
def PyIter.lenQ {α : Type} : PyIter α → Option Nat
  | .raw l => some l.length
  | .gen _ => none
  | .active _ => none

/-- Python's `iter`: turns a raw sequence or generator into an iterator
over its elements; an iterator returns itself. -/
def PyIter.iter {α : Type} : PyIter α → PyIter α
  | .raw l => .active l
  | .gen l => .active l
  | .active l => .active l

/-- Python's `next` on an active iterator; `none` is `StopIteration`.
(The driver below always applies `iter` first, as a `for` loop does.) -/
def PyIter.next {α : Type} : PyIter α → Option (α × PyIter α)
  | .active (x :: xs) => some (x, .active xs)
  | .active [] => none
  | .raw _ => none
  | .gen _ => none

/-- The elements that remain inside the iterable, used to size the fuel of
the iteration driver. -/
def PyIter.elems {α : Type} : PyIter α → List α
  | .raw l => l
  | .gen l => l
  | .active l => l

/-! ### `ForTracker` -/

/-- The value returned by `ForTracker.__next__`: the bare element, or the
`(index, element)` pair in enumeration mode. -/
inductive ForYield (α : Type) where
  | val : α → ForYield α
  | pair : Nat → α → ForYield α
  deriving Repr, DecidableEq

/-- State of `ForTracker` (fields of `Tracker`, `LoopTracker` and
`ForTracker` flattened, in initialisation order): `name` and `call_time`
from `Tracker`, `it_i` and `end` from `LoopTracker`, then the wrapped
iterable `it`, the size-query result `it_lenQ`/`it_len` and the
enumeration switch `enumQ`. -/
structure ForTracker (α : Type) where
  name : String
  call_time : Nat
  it_i : Nat
  «end» : Bool
  it : PyIter α
  it_lenQ : Bool
  it_len : Nat
  enumQ : Bool
  deriving Repr, DecidableEq

/-- Source `LoopTracker.get_end`: newline once the loop is final, carriage return
before that. -/
def ForTracker.get_end {α : Type} (t : ForTracker α) : String :=
  if t.«end» then "\n" else "\r"

/-- Source `ForTracker.get_msg`: `"(i/len) name - T s"` when the length is known,
`"(i) name - T s"` otherwise. -/
def ForTracker.get_msg {α : Type} (t : ForTracker α) (now : Nat) : String :=
  if t.it_lenQ then
    "(" ++ toString t.it_i ++ "/" ++ toString t.it_len ++ ") " ++ t.name
      ++ " - " ++ fmt2 (now - t.call_time) ++ "s"
  else
    "(" ++ toString t.it_i ++ ") " ++ t.name ++ " - " ++ fmt2 (now - t.call_time) ++ "s"

/-- Source `Tracker.print`: combine `get_msg` and `get_end` into the line sent to
the console. -/
def ForTracker.print {α : Type} (t : ForTracker α) (now : Nat) : Emission :=
  { msg := t.get_msg now, term := t.get_end }

/-- Source `ForTracker.__init__` (including `Tracker.__init__`,
`LoopTracker.__init__` and `_get_len`): store the name, capture the clock,
zero the counter and the final flag, store the iterable, attempt the size
query (`TypeError` sets `it_lenQ := false`), store the enumeration switch.
When the size query fails the source leaves `it_len` unset; the model uses
`0`, guarded everywhere by `it_lenQ`. -/
def ForTracker.init {α : Type} (name : String) (it : PyIter α) (enumQ : Bool)
    (now : Nat) : ForTracker α :=
  match it.lenQ with
  | some n =>
      { name := name, call_time := now, it_i := 0, «end» := false,
        it := it, it_lenQ := true, it_len := n, enumQ := enumQ }
  | none =>
      { name := name, call_time := now, it_i := 0, «end» := false,
        it := it, it_lenQ := false, it_len := 0, enumQ := enumQ }

/-- Source `ForTracker.__iter__`: replace the iterable by an iterator over it,
re-capture the clock, print one status line, return the tracker itself. -/
def ForTracker.iter {α : Type} (t : ForTracker α) (now : Nat) :
    ForTracker α × Emission :=
  let t1 := { t with it := t.it.iter, call_time := now }
  (t1, t1.print now)

/-- Source `ForTracker.__next__`: on `StopIteration` set the final flag, print
the final line and re-raise (the `none` yield); otherwise remember the
pre-increment index, print, increment the counter, and yield the pair or
the bare value according to `enumQ`. -/
def ForTracker.next {α : Type} (t : ForTracker α) (now : Nat) :
    ForTracker α × Emission × Option (ForYield α) :=
  match t.it.next with
  | none =>
      let t1 := { t with «end» := true }
      (t1, t1.print now, none)
  | some (v, it1) =>
      let r_i := t.it_i
      let t1 := { t with it := it1 }
      let em := t1.print now
      let t2 := { t1 with it_i := t1.it_i + 1 }
      (t2, em, some (if t2.enumQ then ForYield.pair r_i v else ForYield.val v))

/-- Driver for the caller's `for` loop: call `__next__` until it signals
`StopIteration`, collecting the printed lines and the produced values.
`fuel` bounds the number of calls; the driver below always supplies enough. -/
def ForTracker.runAux {α : Type} (t : ForTracker α) (fuel now : Nat) :
    ForTracker α × List Emission × List (ForYield α) :=
  match fuel with
  | 0 => (t, [], [])
  | Nat.succ fuel1 =>
      match t.next now with
      | (t1, em, none) => (t1, [em], [])
      | (t1, em, some y) =>
          let r := t1.runAux fuel1 now
          (r.1, em :: r.2.1, y :: r.2.2)

/-- The caller's whole `for` loop over the tracker: `__iter__` once, then
`__next__` to exhaustion.  Returns the final tracker state, every printed
line in order, and every produced value in order. -/
def ForTracker.run {α : Type} (t : ForTracker α) (now : Nat) :
    ForTracker α × List Emission × List (ForYield α) :=
  let p := t.iter now
  let r := p.1.runAux (p.1.it.elems.length + 1) now
  (r.1, p.2 :: r.2.1, r.2.2)

/-! ### `WhileTracker` and its metaclass registry -/

/-- State of `WhileTracker` (fields of `Tracker`, `LoopTracker` and
`WhileTracker` flattened, in initialisation order). -/
structure WhileTracker where
  name : String
  call_time : Nat
  it_i : Nat
  «end» : Bool
  expr : Bool
  deriving Repr, DecidableEq

/-- Source `WhileTracker.__init__`: `Tracker.__init__` and `LoopTracker.__init__`
plus storing the condition value. -/
def WhileTracker.init (name : String) (expr : Bool) (now : Nat) : WhileTracker :=
  { name := name, call_time := now, it_i := 0, «end» := false, expr := expr }

/-- Source `LoopTracker.get_end` as inherited by `WhileTracker`. -/
def WhileTracker.get_end (t : WhileTracker) : String :=
  if t.«end» then "\n" else "\r"

/-- Source `WhileTracker.get_msg`: `"(i) g name - T s"` where `g` is drawn from
the shared animation source `prog` (a class attribute, threaded explicitly
here).  `none` only if the glyph source is empty. -/
def WhileTracker.get_msg (t : WhileTracker) (prog : InfSeq String) (now : Nat) :
    Option (String × InfSeq String) :=
  match prog.next with
  | none => none
  | some (g, prog1) =>
      some ("(" ++ toString t.it_i ++ ") " ++ g ++ " " ++ t.name
              ++ " - " ++ fmt2 (now - t.call_time) ++ "s", prog1)

/-- The class attribute `WhileTracker.prog` at process start:
`misc.InfSeq(['-', '\\', '|', '/'])`. -/
def WhileTracker.prog : InfSeq String := ⟨["-", "\\", "|", "/"], 0⟩

/-- Source `WhileTracker.__bool__`: set `end := not expr`, increment `it_i`,
print (which draws the next animation glyph), return `expr`.  The result
carries the updated tracker, the advanced glyph source, the printed line
and the returned boolean. -/
def WhileTracker.bool (t : WhileTracker) (prog : InfSeq String) (now : Nat) :
    Option (WhileTracker × InfSeq String × Emission × Bool) :=
  let t1 := { t with «end» := !t.expr, it_i := t.it_i + 1 }
  match t1.get_msg prog now with
  | none => none
  | some (m, prog1) =>
      some (t1, prog1, { msg := m, term := t1.get_end }, t1.expr)

/-- The key of the metaclass cache: the source stores instances under
`hash((cls, name))`; the model keys directly by the concrete-class
identity (a number) paired with the name. -/
abbrev RegKey := Nat × String

/-- The process-wide `WhileTrackerMeta.instances` mapping, modelled as an
association list. -/
abbrev Registry := List (RegKey × WhileTracker)

/-- Lookup in the instance cache. -/
def regLookup (reg : Registry) (k : RegKey) : Option WhileTracker :=
  match reg with
  | [] => none
  | (k1, t) :: rest => if k1 = k then some t else regLookup rest k

/-- Store (insert or replace) in the instance cache. -/
def regStore (reg : Registry) (k : RegKey) (t : WhileTracker) : Registry :=
  match reg with
  | [] => [(k, t)]
  | (k1, t1) :: rest =>
      if k1 = k then (k, t) :: rest else (k1, t1) :: regStore rest k t

/-- Source `WhileTrackerMeta.__call__`: if the key is absent, construct and cache
a fresh instance; then assign `expr` on the cached instance (in place) and
return it.  In the value model the in-place assignment is a store of the
updated record at the same key. -/
def WhileTrackerMeta.call (reg : Registry) (kind : Nat) (name : String)
    (expr : Bool) (now : Nat) : Registry × WhileTracker :=
  let k : RegKey := (kind, name)
  let base := match regLookup reg k with
    | none => WhileTracker.init name expr now
    | some t => t
  let t1 := { base with expr := expr }
  (regStore reg k t1, t1)

/-- Source `__bool__` invoked on the instance cached under `k`: Python mutates
the registry-held object, modelled by storing the updated record back. -/
def WhileTracker.boolAt (reg : Registry) (k : RegKey) (prog : InfSeq String)
    (now : Nat) : Option (Registry × InfSeq String × Emission × Bool) :=
  match regLookup reg k with
  | none => none
  | some t =>
      match t.bool prog now with
      | none => none
      | some (t1, prog1, em, b) => some (regStore reg k t1, prog1, em, b)

/-- One pass of the caller's idiom `while WhileTracker(name, cond): ...`:
construct/look up through the metaclass, then evaluate the truth value. -/
def whilePass (reg : Registry) (kind : Nat) (name : String) (expr : Bool)
    (prog : InfSeq String) (now : Nat) :
    Option (Registry × InfSeq String × Emission × Bool) :=
  let r := WhileTrackerMeta.call reg kind name expr now
  WhileTracker.boolAt r.1 (kind, name) prog now

/-! ### `_FuncTracker` -/

/-- Python truthiness of an optional string: `None` and `""` are falsy. -/
def truthy : Option String → Bool
  | none => false
  | some s => !(s = "")

/-- State of `_FuncTracker` (the class behind the `FuncTracker`
decorator): name, the optional entry and exit messages, and `call_time`,
which the source only assigns inside `__call__` (the model initialises it
to `0`; it is overwritten before any use). The wrapped callable is passed
to `call` explicitly. -/
structure FuncTracker where
  name : String
  call_time : Nat
  call_msg : Option String
  exit_msg : Option String
  deriving Repr, DecidableEq

/-- Source `_FuncTracker.__init__`: the name falls back to the wrapped
function's own `__name__` when the given name is falsy. -/
def FuncTracker.init (funcName : String) (name call_msg exit_msg : Option String) :
    FuncTracker :=
  { name := match name with
      | none => funcName
      | some s => if s = "" then funcName else s,
    call_time := 0, call_msg := call_msg, exit_msg := exit_msg }

/-- Source `_FuncTracker.get_msg`: start from `"name | msg"`, append
`" - T s"` when `timeQ`, append `" | v1=r1, v2=r2"` when keyword snapshots
were given.  Each snapshot value is rendered by the external `repr`
collaborator `reprFn`; `t_vars` keeps the caller's keyword order. -/
def FuncTracker.get_msg {ν : Type} (t : FuncTracker) (msg : String) (timeQ : Bool)
    (t_vars : List (String × ν)) (reprFn : ν → String) (now : Nat) : String :=
  let m := t.name ++ " | " ++ msg
  let m := if timeQ then m ++ " - " ++ fmt2 (now - t.call_time) ++ "s" else m
  if t_vars.isEmpty then m
  else m ++ " | " ++ String.intercalate (", ")
        (t_vars.map (fun p => p.1 ++ "=" ++ reprFn p.2))

/-- Source `_FuncTracker.get_end`: always a newline. -/
def FuncTracker.get_end (_t : FuncTracker) : String := "\n"

/-- Source `_FuncTracker.print`: combine `get_msg` and `get_end`. -/
def FuncTracker.print {ν : Type} (t : FuncTracker) (msg : String) (timeQ : Bool)
    (t_vars : List (String × ν)) (reprFn : ν → String) (now : Nat) : Emission :=
  { msg := t.get_msg msg timeQ t_vars reprFn now, term := t.get_end }

/-- Source `_FuncTracker.flag`: delegates to `print`. -/
def FuncTracker.flag {ν : Type} (t : FuncTracker) (msg : String) (timeQ : Bool)
    (t_vars : List (String × ν)) (reprFn : ν → String) (now : Nat) : Emission :=
  t.print msg timeQ t_vars reprFn now

/-- The lines printed by `if self.call_msg: self.flag(self.call_msg, False)`
at the start of `__call__` (entry message, no elapsed time, no snapshots),
evaluated at the tracker's freshly captured `call_time`. -/
def FuncTracker.entryEmits (t : FuncTracker) : List Emission :=
  if truthy t.call_msg then
    [t.flag (t.call_msg.getD ("")) false ([] : List (String × Unit)) (fun _ => ("")) t.call_time]
  else []

/-- The lines printed by `if self.exit_msg: self.flag(self.exit_msg)`
after the wrapped callable returns (exit message, elapsed time shown). -/
def FuncTracker.exitEmits (t : FuncTracker) (exitNow : Nat) : List Emission :=
  if truthy t.exit_msg then
    [t.flag (t.exit_msg.getD ("")) true ([] : List (String × Unit)) (fun _ => ("")) exitNow]
  else []

/-- Source `_FuncTracker.__call__`: capture a fresh `call_time`, print the entry
message when configured, invoke the wrapped callable `f` with the tracker
injected (its result is either a value or a raised exception, together
with the lines `f` itself printed through `flag`), and — only on normal
return — print the exit message and pass the result through unchanged.
A raised exception propagates and skips the exit message. -/
def FuncTracker.call {ε ρ : Type} (t : FuncTracker) (now exitNow : Nat)
    (f : FuncTracker → Except ε ρ × List Emission) :
    FuncTracker × Except ε ρ × List Emission :=
  let t1 := { t with call_time := now }
  match f t1 with
  | (Except.error e, fems) => (t1, Except.error e, t1.entryEmits ++ fems)
  | (Except.ok r, fems) =>
      (t1, Except.ok r, t1.entryEmits ++ fems ++ t1.exitEmits exitNow)

/-! ### Helper lemmas -/

theorem regLookup_regStore_self (reg : Registry) (k : RegKey) (t : WhileTracker) :
    regLookup (regStore reg k t) k = some t := by
  induction reg with
  | nil => simp [regStore, regLookup]
  | cons p rest ih =>
      obtain ⟨k1, t1⟩ := p
      by_cases h : k1 = k
      · simp [regStore, regLookup, h]
      · simp [regStore, regLookup, h, ih]

theorem regLookup_regStore_ne (reg : Registry) (k k2 : RegKey) (t : WhileTracker)
    (h : k2 ≠ k) : regLookup (regStore reg k t) k2 = regLookup reg k2 := by
  induction reg with
  | nil => simp [regStore, regLookup, Ne.symm h]
  | cons p rest ih =>
      obtain ⟨k1, t1⟩ := p
      by_cases h1 : k1 = k
      · subst h1
        simp [regStore, regLookup, Ne.symm h]
      · simp [regStore, regLookup, h1, ih]

theorem InfSeq.draw_eq {α : Type} (l : List α) (hl : l ≠ []) :
    ∀ (k j : Nat), j ≤ l.length →
      InfSeq.draw ⟨l, j⟩ k =
        l[(((if j = l.length then 0 else j) + k) % l.length)]? := by
  intro k
  induction k with
  | zero =>
      intro j hj
      have hN : 0 < l.length := List.length_pos.mpr hl
      have hi : (if j = l.length then 0 else j) < l.length := by
        by_cases h : j = l.length
        · simpa [h] using hN
        · simpa [h] using lt_of_le_of_ne hj h
      have hget := List.getElem?_eq_getElem hi
      simp [InfSeq.draw, InfSeq.next, hget, Nat.mod_eq_of_lt hi]
  | succ k ih =>
      intro j hj
      have hN : 0 < l.length := List.length_pos.mpr hl
      have hi : (if j = l.length then 0 else j) < l.length := by
        by_cases h : j = l.length
        · simpa [h] using hN
        · simpa [h] using lt_of_le_of_ne hj h
      have hget := List.getElem?_eq_getElem hi
      have hstep : InfSeq.next ⟨l, j⟩ =
          some (l[if j = l.length then 0 else j],
                ⟨l, (if j = l.length then 0 else j) + 1⟩) := by
        simp [InfSeq.next, hget]
      have ih1 := ih ((if j = l.length then 0 else j) + 1) (Nat.succ_le_of_lt hi)
      simp only [InfSeq.draw, hstep]
      rw [ih1]
      have h1 : (if (if j = l.length then 0 else j) + 1 = l.length then 0
                 else (if j = l.length then 0 else j) + 1) =
        ((if j = l.length then 0 else j) + 1) % l.length := by
        by_cases h : (if j = l.length then 0 else j) + 1 = l.length
        · simp [h, Nat.mod_self]
        · rw [if_neg h, Nat.mod_eq_of_lt (lt_of_le_of_ne (Nat.succ_le_of_lt hi) h)]
      rw [h1, Nat.mod_add_mod]
      have harith : (if j = l.length then 0 else j) + 1 + k =
          (if j = l.length then 0 else j) + (k + 1) := by omega
      rw [harith]

theorem ForTracker.runAux_spec {α : Type} (l : List α) :
    ∀ (t : ForTracker α) (fuel now : Nat),
      t.it = PyIter.active l → t.«end» = false → l.length < fuel →
      (t.runAux fuel now).1 =
        { t with it := PyIter.active ([] : List α), «end» := true,
                 it_i := t.it_i + l.length } ∧
      ((t.runAux fuel now).2.1).map Emission.term =
        List.replicate l.length ("\r") ++ [("\n")] ∧
      (t.runAux fuel now).2.2 =
        (if t.enumQ then
          (List.enumFrom t.it_i l).map (fun p => ForYield.pair p.1 p.2)
         else l.map ForYield.val) := by
  induction l with
  | nil =>
      intro t fuel now hit hend hfuel
      obtain ⟨fuel1, rfl⟩ : ∃ f, fuel = f + 1 := ⟨fuel - 1, by omega⟩
      obtain ⟨nm, ct, ii, ed, itf, lq, ln, enq⟩ := t
      simp only at hit hend
      subst hit hend
      refine ⟨rfl, rfl, ?_⟩
      cases enq <;> simp [ForTracker.runAux, ForTracker.next, PyIter.next]
  | cons x xs ih =>
      intro t fuel now hit hend hfuel
      obtain ⟨fuel1, rfl⟩ : ∃ f, fuel = f + 1 := ⟨fuel - 1, by omega⟩
      obtain ⟨nm, ct, ii, ed, itf, lq, ln, enq⟩ := t
      simp only at hit hend
      subst hit hend
      have hrec := ih ⟨nm, ct, ii + 1, false, PyIter.active xs, lq, ln, enq⟩
        fuel1 now rfl rfl (by simpa using Nat.lt_of_succ_lt_succ hfuel)
      refine ⟨?_, ?_, ?_⟩
      · show ((⟨nm, ct, ii + 1, false, PyIter.active xs, lq, ln, enq⟩ :
            ForTracker α).runAux fuel1 now).1 = _
        rw [hrec.1]
        have harith : ii + 1 + xs.length = ii + (xs.length + 1) := by omega
        simp [harith]
      · show Emission.term ((⟨nm, ct, ii, false, PyIter.active xs, lq, ln, enq⟩ :
            ForTracker α).print now) ::
          (((⟨nm, ct, ii + 1, false, PyIter.active xs, lq, ln, enq⟩ :
            ForTracker α).runAux fuel1 now).2.1).map Emission.term = _
        rw [hrec.2.1]
        simp [ForTracker.print, ForTracker.get_end, List.replicate_succ]
      · show (if enq then ForYield.pair ii x else ForYield.val x) ::
          ((⟨nm, ct, ii + 1, false, PyIter.active xs, lq, ln, enq⟩ :
            ForTracker α).runAux fuel1 now).2.2 = _
        rw [hrec.2.2]
        cases enq <;> simp [List.enumFrom]

theorem ForTracker.run_raw_spec {α : Type} (name : String) (l : List α)
    (enumQ : Bool) (t0 now : Nat) :
    ((ForTracker.init name (PyIter.raw l) enumQ t0).run now).1 =
      { name := name, call_time := now, it_i := l.length, «end» := true,
        it := PyIter.active ([] : List α), it_lenQ := true, it_len := l.length,
        enumQ := enumQ } ∧
    (((ForTracker.init name (PyIter.raw l) enumQ t0).run now).2.1).map Emission.term =
      ("\r") :: (List.replicate l.length ("\r") ++ [("\n")]) ∧
    ((ForTracker.init name (PyIter.raw l) enumQ t0).run now).2.2 =
      (if enumQ then (List.enumFrom 0 l).map (fun p => ForYield.pair p.1 p.2)
       else l.map ForYield.val) := by
  have hspec := ForTracker.runAux_spec l
    (⟨name, now, 0, false, PyIter.active l, true, l.length, enumQ⟩ : ForTracker α)
    (l.length + 1) now rfl rfl (Nat.lt_succ_self _)
  refine ⟨?_, ?_, ?_⟩
  · show ((⟨name, now, 0, false, PyIter.active l, true, l.length, enumQ⟩ :
        ForTracker α).runAux (l.length + 1) now).1 = _
    rw [hspec.1]
    simp
  · show Emission.term ((⟨name, now, 0, false, PyIter.active l, true, l.length,
        enumQ⟩ : ForTracker α).print now) ::
      (((⟨name, now, 0, false, PyIter.active l, true, l.length, enumQ⟩ :
        ForTracker α).runAux (l.length + 1) now).2.1).map Emission.term = _
    rw [hspec.2.1]
    simp [ForTracker.print, ForTracker.get_end]
  · show ((⟨name, now, 0, false, PyIter.active l, true, l.length, enumQ⟩ :
        ForTracker α).runAux (l.length + 1) now).2.2 = _
    rw [hspec.2.2]

/-! ### Claims -/

/-- Claim C1, counterexample: the claim says a wrapped 3-element sequence
iterated to exhaustion in non-enumeration mode emits exactly N+1 = 4
lines; on the code it emits 5 — `__iter__` prints one pre-iteration line,
each of the 3 successful `__next__` calls prints one line, and the
`StopIteration` branch of `__next__` prints one more final line before
re-raising. -/
theorem C1_counterexample :
    ((ForTracker.init ("t") (PyIter.raw [10, 20, 30]) false 0).run 0).2.1.length = 5 ∧
    ¬ ((ForTracker.init ("t") (PyIter.raw [10, 20, 30]) false 0).run 0).2.1.length = 4 := by
  decide

/-- Claim C1 (amended): for every finite wrapped sequence of length N
iterated to exhaustion through `ForTracker` in non-enumeration mode,
exactly N+2 status lines are emitted — one pre-iteration line, N
per-iteration lines, and one exhaustion line; the very last emitted line
is terminated with a newline and every earlier line with the overwrite
terminator `"\r"`. -/
theorem C1_amended {α : Type} (name : String) (l : List α) (t0 now : Nat) :
    ((ForTracker.init name (PyIter.raw l) false t0).run now).2.1.length = l.length + 2 ∧
    (((ForTracker.init name (PyIter.raw l) false t0).run now).2.1).map Emission.term =
      List.replicate (l.length + 1) ("\r") ++ [("\n")] := by
  have h := (ForTracker.run_raw_spec name l false t0 now).2.1
  constructor
  · have hlen : ((ForTracker.init name (PyIter.raw l) false t0).run now).2.1.length =
        ((((ForTracker.init name (PyIter.raw l) false t0).run now).2.1).map
          Emission.term).length := (List.length_map _ _).symm
    rw [hlen, h]
    simp
  · rw [h]
    simp [List.replicate_succ]

/-- Claim C6: in enumeration mode the wrapper produces the pairs
`(0, a), (1, b), (2, c), ...` — each index is the number of elements
already produced — and in non-enumeration mode it produces the underlying
elements unchanged, in order. -/
theorem C6_enumeration {α : Type} (name : String) (l : List α) (t0 now : Nat) :
    ((ForTracker.init name (PyIter.raw l) true t0).run now).2.2 =
      (List.enumFrom 0 l).map (fun p => ForYield.pair p.1 p.2) ∧
    ((ForTracker.init name (PyIter.raw l) false t0).run now).2.2 =
      l.map ForYield.val := by
  refine ⟨?_, ?_⟩
  · have h := (ForTracker.run_raw_spec name l true t0 now).2.2
    simpa using h
  · have h := (ForTracker.run_raw_spec name l false t0 now).2.2
    simpa using h

/-- Claim C8: a failing size query on the wrapped iterable is not an
error — `it_lenQ` is set to `false` and every rendered message takes the
form `"(k) name - Xs"` without a total, whatever the iteration index `i`;
when the size query succeeds with total `T = l.length`, every rendered
message takes the form `"(k/T) name - Xs"`. -/
theorem C8_render {α : Type} (name : String) (l : List α) (enumQ : Bool)
    (t0 now i : Nat) :
    (ForTracker.init name (PyIter.gen l) enumQ t0).it_lenQ = false ∧
    ({ ForTracker.init name (PyIter.gen l) enumQ t0 with it_i := i }).get_msg now =
      "(" ++ toString i ++ ") " ++ name ++ " - " ++ fmt2 (now - t0) ++ "s" ∧
    (ForTracker.init name (PyIter.raw l) enumQ t0).it_lenQ = true ∧
    (ForTracker.init name (PyIter.raw l) enumQ t0).it_len = l.length ∧
    ({ ForTracker.init name (PyIter.raw l) enumQ t0 with it_i := i }).get_msg now =
      "(" ++ toString i ++ "/" ++ toString l.length ++ ") " ++ name ++ " - "
        ++ fmt2 (now - t0) ++ "s" := by
  exact ⟨rfl, rfl, rfl, rfl, rfl⟩

/-- Claim C10: restarting iteration on the same tracker instance
(`__iter__` again) resets only the start timestamp and the active cursor;
the iteration counter and the final flag are unchanged, so after a full
first pass over an N-element sequence the counter stays at N, the flag
stays `true`, and a second pass emits every line (the pre-iteration line
and the immediate exhaustion line) with a newline terminator. -/
theorem C10_restart {α : Type} (name : String) (l : List α) (enumQ : Bool)
    (t0 now now2 now3 : Nat) :
    ((((ForTracker.init name (PyIter.raw l) enumQ t0).run now).1).iter now2).1.it_i =
      (((ForTracker.init name (PyIter.raw l) enumQ t0).run now).1).it_i ∧
    ((((ForTracker.init name (PyIter.raw l) enumQ t0).run now).1).iter now2).1.«end» =
      (((ForTracker.init name (PyIter.raw l) enumQ t0).run now).1).«end» ∧
    ((((ForTracker.init name (PyIter.raw l) enumQ t0).run now).1).iter now2).1.call_time =
      now2 ∧
    (((ForTracker.init name (PyIter.raw l) enumQ t0).run now).1).it_i = l.length ∧
    (((ForTracker.init name (PyIter.raw l) enumQ t0).run now).1).«end» = true ∧
    (((((ForTracker.init name (PyIter.raw l) enumQ t0).run now).1).run now3).2.1).map
      Emission.term = [("\n"), ("\n")] := by
  have h := (ForTracker.run_raw_spec name l enumQ t0 now).1
  rw [h]
  refine ⟨rfl, rfl, rfl, rfl, rfl, ?_⟩
  simp [ForTracker.run, ForTracker.iter, ForTracker.runAux, ForTracker.next,
        PyIter.iter, PyIter.next, PyIter.elems, ForTracker.print, ForTracker.get_end]

/-- Claim C2, counterexample: the claim says an evaluation whose supplied
condition is `false` marks the tracker final and returns `false` without
incrementing the counter; on the code `__bool__` increments `it_i`
unconditionally — evaluating a tracker with `it_i = 0` and `expr = false`
leaves `it_i = 1`, not `0` (while indeed going final and returning
`false`). -/
theorem C2_counterexample :
    (WhileTracker.bool (⟨("x"), 0, 0, false, false⟩ : WhileTracker)
        WhileTracker.prog 0).map (fun r => (r.1.it_i, r.1.«end», r.2.2.2)) =
      some (1, true, false) ∧
    ¬ (WhileTracker.bool (⟨("x"), 0, 0, false, false⟩ : WhileTracker)
        WhileTracker.prog 0).map (fun r => r.1.it_i) = some 0 := by
  decide

/-- Claim C2 (amended): each boolean evaluation of `WhileTracker` sets the
final flag to the negation of the supplied condition value, increments the
iteration counter unconditionally (by exactly one, also on the evaluation
that goes final), and returns the condition value unchanged — whenever the
evaluation completes, i.e. whenever the animation glyph source is
non-empty. -/
theorem C2_amended (t : WhileTracker) (prog : InfSeq String) (now : Nat) :
    (t.bool prog now).map (fun r => (r.1.«end», r.1.it_i, r.2.2.2)) =
      (prog.next).map (fun _ => (!t.expr, t.it_i + 1, t.expr)) := by
  obtain ⟨nm, ct, ii, ed, ex⟩ := t
  unfold WhileTracker.bool WhileTracker.get_msg
  cases h : prog.next with
  | none => simp [h]
  | some p => simp [h]

/-- Claim C3, counterexample: the claim says the final flag never reverts
to `false` for any `LoopTracker` subclass, including a condition tracker
re-constructed with the same name after having gone final; on the code,
after `WhileTracker('w', False)` goes final (`end = true`), a second pass
`WhileTracker('w', True)` reuses the cached instance and its `__bool__`
sets `end = not True = false` — the flag reverts. -/
theorem C3_counterexample :
    ((whilePass [] 0 ("w") false WhileTracker.prog 0).bind (fun r =>
        (regLookup r.1 (0, ("w"))).map (fun t => t.«end»))) = some true ∧
    ((whilePass [] 0 ("w") false WhileTracker.prog 0).bind (fun r =>
        (whilePass r.1 0 ("w") true r.2.1 5).bind (fun r2 =>
          (regLookup r2.1 (0, ("w"))).map (fun t => t.«end»)))) = some false := by
  decide

/-- Claim C3 (amended): the transition to the final state is
one-directional for `ForTracker` — neither `__iter__` nor `__next__` ever
clears a set final flag — but not for `WhileTracker`: its evaluation sets
the flag to the negation of the currently supplied condition, so a
condition tracker re-evaluated (re-constructed with the same name) with a
`true` condition after having gone final has its flag cleared. -/
theorem C3_amended {α : Type} (t : ForTracker α) (now : Nat)
    (w : WhileTracker) (prog : InfSeq String) (now2 : Nat) :
    (t.«end» = true → (t.iter now).1.«end» = true) ∧
    (t.«end» = true → (t.next now).1.«end» = true) ∧
    (w.bool prog now2).map (fun r => r.1.«end») =
      (prog.next).map (fun _ => !w.expr) := by
  refine ⟨?_, ?_, ?_⟩
  · intro h
    simp [ForTracker.iter, h]
  · intro h
    unfold ForTracker.next
    cases hn : t.it.next with
    | none => simp
    | some p => simp [h]
  · obtain ⟨nm, ct, ii, ed, ex⟩ := w
    unfold WhileTracker.bool WhileTracker.get_msg
    cases hp : prog.next with
    | none => simp [hp]
    | some p => simp [hp]

/-- Witness for C3 (amended): a `ForTracker` over `Nat` whose final flag
is set keeps it set across `__iter__` and `__next__`. -/
theorem C3_witness :
    (((⟨("t"), 0, 3, true, PyIter.active ([] : List Nat), false, 0, false⟩ :
        ForTracker Nat).iter 7).1.«end» = true) ∧
    (((⟨("t"), 0, 3, true, PyIter.active ([] : List Nat), false, 0, false⟩ :
        ForTracker Nat).next 7).1.«end» = true) :=
  ⟨(C3_amended (⟨("t"), 0, 3, true, PyIter.active ([] : List Nat), false, 0, false⟩ :
      ForTracker Nat) 7 (⟨("w"), 0, 0, false, true⟩ : WhileTracker)
      WhileTracker.prog 0).1 rfl,
   (C3_amended (⟨("t"), 0, 3, true, PyIter.active ([] : List Nat), false, 0, false⟩ :
      ForTracker Nat) 7 (⟨("w"), 0, 0, false, true⟩ : WhileTracker)
      WhileTracker.prog 0).2.1 rfl⟩

/-- Claim C4: for every `(kind, name)` key, the first construction through
the metaclass creates and caches a fresh instance (counter `0`, flag
`false`, timestamp `now`); every subsequent construction with the same key
returns the cached instance with only `expr` overwritten — `it_i` and
`call_time` unchanged — and stores it back under the same key; entries
under every other key (distinct name, or distinct kind with the same
name) are untouched. -/
theorem C4_registry (reg : Registry) (kind : Nat) (name : String)
    (expr : Bool) (now : Nat) :
    (regLookup reg (kind, name) = none →
      (WhileTrackerMeta.call reg kind name expr now).2 =
        WhileTracker.init name expr now ∧
      regLookup (WhileTrackerMeta.call reg kind name expr now).1 (kind, name) =
        some (WhileTrackerMeta.call reg kind name expr now).2) ∧
    (∀ t0 : WhileTracker, regLookup reg (kind, name) = some t0 →
      (WhileTrackerMeta.call reg kind name expr now).2 = { t0 with expr := expr } ∧
      (WhileTrackerMeta.call reg kind name expr now).2.it_i = t0.it_i ∧
      (WhileTrackerMeta.call reg kind name expr now).2.call_time = t0.call_time ∧
      regLookup (WhileTrackerMeta.call reg kind name expr now).1 (kind, name) =
        some (WhileTrackerMeta.call reg kind name expr now).2) ∧
    (∀ k2 : RegKey, k2 ≠ (kind, name) →
      regLookup (WhileTrackerMeta.call reg kind name expr now).1 k2 =
        regLookup reg k2) := by
  refine ⟨?_, ?_, ?_⟩
  · intro h
    unfold WhileTrackerMeta.call
    simp only [h]
    exact ⟨rfl, regLookup_regStore_self _ _ _⟩
  · intro t0 h
    unfold WhileTrackerMeta.call
    simp only [h]
    simp [regLookup_regStore_self]
  · intro k2 h
    unfold WhileTrackerMeta.call
    exact regLookup_regStore_ne _ _ _ _ h

/-- Witness for C4: on an empty registry the first construction caches a
fresh instance; re-construction of a cached `(0, "loop")` instance with a
new condition value overwrites only `expr`; a call under kind `1` leaves
the key `(0, "x")` unchanged. -/
theorem C4_witness :
    ((WhileTrackerMeta.call [] 0 ("loop") true 4).2 =
      WhileTracker.init ("loop") true 4) ∧
    ((WhileTrackerMeta.call [((0, ("loop")), (⟨("loop"), 5, 7, false, false⟩ :
        WhileTracker))] 0 ("loop") true 9).2 =
      { (⟨("loop"), 5, 7, false, false⟩ : WhileTracker) with expr := true }) ∧
    (regLookup (WhileTrackerMeta.call [] 1 ("x") false 3).1 (0, ("x")) =
      regLookup ([] : Registry) (0, ("x"))) :=
  ⟨((C4_registry [] 0 ("loop") true 4).1 rfl).1,
   ((C4_registry [((0, ("loop")), (⟨("loop"), 5, 7, false, false⟩ : WhileTracker))]
      0 ("loop") true 9).2.1 (⟨("loop"), 5, 7, false, false⟩ : WhileTracker) rfl).1,
   (C4_registry [] 1 ("x") false 3).2.2 (0, ("x")) (by decide)⟩

/-- Claim C5: for every non-empty backing sequence of length N, the cyclic
sequence `InfSeq` never fails on a draw, visits the backing elements in
order (the k-th draw, 0-based, is the element at index `k % N`), and is
periodic with period N: the `(k+N)`-th draw equals the k-th draw. -/
theorem C5_cycle {α : Type} (l : List α) (h : l ≠ []) (k : Nat) :
    (InfSeq.draw ⟨l, 0⟩ k).isSome = true ∧
    InfSeq.draw ⟨l, 0⟩ k = l[(k % l.length)]? ∧
    InfSeq.draw ⟨l, 0⟩ (k + l.length) = InfSeq.draw ⟨l, 0⟩ k := by
  have hN : 0 < l.length := List.length_pos.mpr h
  have h0 : ∀ m, InfSeq.draw ⟨l, 0⟩ m = l[(m % l.length)]? := by
    intro m
    have hm := InfSeq.draw_eq l h m 0 (Nat.zero_le _)
    simpa using hm
  refine ⟨?_, h0 k, ?_⟩
  · rw [h0 k]
    have hlt : k % l.length < l.length := Nat.mod_lt _ hN
    simp [List.getElem?_eq_getElem hlt]
  · rw [h0 (k + l.length), h0 k, Nat.add_mod_right]

/-- Witness for C5 at the glyph sequence `['-', '\\', '|', '/']` of the
source and k = 4: the 5th through 8th draws repeat the 1st through 4th. -/
theorem C5_witness :
    (InfSeq.draw ⟨["-", "\\", "|", "/"], 0⟩ 4).isSome = true ∧
    InfSeq.draw ⟨["-", "\\", "|", "/"], 0⟩ 4 =
      (["-", "\\", "|", "/"] : List String)[(4 %
        (["-", "\\", "|", "/"] : List String).length)]? ∧
    InfSeq.draw ⟨["-", "\\", "|", "/"], 0⟩
        (4 + (["-", "\\", "|", "/"] : List String).length) =
      InfSeq.draw ⟨["-", "\\", "|", "/"], 0⟩ 4 :=
  C5_cycle (["-", "\\", "|", "/"] : List String) (by decide) 4

/-- Claim C7: for every wrapped callable that raises, the failure
propagates unchanged through `_FuncTracker.__call__`, the emitted lines
are exactly the entry message (when configured — emitted exactly once,
before the callable's own lines) followed by whatever the callable
emitted before failing, and no exit message; when the callable returns
normally its result is passed through unchanged and the exit message
(when configured) is appended after everything else. -/
theorem C7_call {ε ρ : Type} (t : FuncTracker) (now exitNow : Nat)
    (f : FuncTracker → Except ε ρ × List Emission) :
    (∀ (e : ε) (fems : List Emission),
      f ({ t with call_time := now }) = (Except.error e, fems) →
      (t.call now exitNow f).2.1 = Except.error e ∧
      (t.call now exitNow f).2.2 =
        ({ t with call_time := now }).entryEmits ++ fems) ∧
    (∀ (r : ρ) (fems : List Emission),
      f ({ t with call_time := now }) = (Except.ok r, fems) →
      (t.call now exitNow f).2.1 = Except.ok r ∧
      (t.call now exitNow f).2.2 =
        ({ t with call_time := now }).entryEmits ++ fems ++
          ({ t with call_time := now }).exitEmits exitNow) ∧
    (({ t with call_time := now }).entryEmits).length =
      (if truthy t.call_msg then 1 else 0) := by
  refine ⟨?_, ?_, ?_⟩
  · intro e fems h
    unfold FuncTracker.call
    simp [h]
  · intro r fems h
    unfold FuncTracker.call
    simp [h]
  · unfold FuncTracker.entryEmits
    obtain ⟨nm, ct, cm, em⟩ := t
    by_cases h : truthy cm
    · simp [h]
    · simp [h]

/-- Witness for C7: a callable that raises `0 : Nat` after emitting
nothing, under a tracker configured with an entry and an exit message —
the error propagates, and exactly the one entry line is emitted. -/
theorem C7_witness :
    (((FuncTracker.init ("f") (some ("job")) (some ("begin"))
        (some ("done"))).call 3 9
        (fun _ => ((Except.error 0, []) : Except Nat Nat × List Emission))).2.1 =
      (Except.error 0 : Except Nat Nat)) ∧
    (((FuncTracker.init ("f") (some ("job")) (some ("begin"))
        (some ("done"))).call 3 9
        (fun _ => ((Except.error 0, []) : Except Nat Nat × List Emission))).2.2 =
      ({ FuncTracker.init ("f") (some ("job")) (some ("begin"))
          (some ("done")) with call_time := 3 }).entryEmits ++
        ([] : List Emission)) :=
  (C7_call (FuncTracker.init ("f") (some ("job")) (some ("begin")) (some ("done")))
    3 9 (fun _ => ((Except.error 0, []) : Except Nat Nat × List Emission))).1 0 [] rfl

/-- Claim C9: a `flag` invocation with message `m`, show-elapsed flag
`timeQ` (the source default is `true`) and named value snapshots emits,
immediately and with a newline terminator, the line
`"<name> | <m>"`, followed by `" - <elapsed>s"` exactly when `timeQ` is
true, followed by `" | var1=val1, var2=val2..."` exactly when snapshots
were given, each value rendered by the external default-representation
collaborator `reprFn` and comma-joined in call order. -/
theorem C9_flag {ν : Type} (t : FuncTracker) (msg : String) (timeQ : Bool)
    (t_vars : List (String × ν)) (reprFn : ν → String) (now : Nat) :
    (t.flag msg timeQ t_vars reprFn now).term = "\n" ∧
    (t.flag msg timeQ t_vars reprFn now).msg =
      t.name ++ " | " ++ msg
        ++ (if timeQ then " - " ++ fmt2 (now - t.call_time) ++ "s" else "")
        ++ (if t_vars.isEmpty then ""
            else " | " ++ String.intercalate (", ")
              (t_vars.map (fun p => p.1 ++ "=" ++ reprFn p.2))) := by
  refine ⟨rfl, ?_⟩
  unfold FuncTracker.flag FuncTracker.print FuncTracker.get_msg
  cases timeQ <;> cases hv : t_vars.isEmpty <;>
    simp only [hv, Bool.false_eq_true, if_false, if_true,
      String.append_assoc, String.append_empty, String.empty_append]

end Trackers
